import Mathlib

/-!
Verification of the ikuuu-auto-checkin scripts (src/main.js).

The repository holds three variants of one check-in program:
  * a single-account variant (`logIn`, `checkIn`, `parseAccountFromConfig`,
    `sendTelegram`, `main` with exit codes),
  * a multi-account `Promise.allSettled` variant with traffic scraping
    (`processSingleAccount`, `parseEarnedFromMsg`, `parseTraffic`),
  * a sequential "card" variant (`logIn` returning `{ok, cookies, text}`,
    `buildAccountBlock`, summary-only failure reporting).

This file shallowly embeds the pure parts of all three: HTTP responses are
passed in as explicit data (status flag, decoded JSON body, headers), and the
network-dependent per-account flows are oracles handed to the coordinator
models.  JavaScript truthiness, `||` / `??` defaulting, `String(...)`
coercion and `JSON.stringify` are modelled explicitly.
-/

namespace Ikuuu

/-! ### JavaScript string primitives -/

/-- The whitespace class used by both the regex `\s` and `String.prototype.trim`
(restricted to the ASCII whitespace characters that occur in practice). -/
def isJsSpace (c : Char) : Bool :=
  c = ' ' ∨ c = '\t' ∨ c = '\n' ∨ c = '\r' ∨ c = '\x0b' ∨ c = '\x0c'

/-- Trim leading and trailing whitespace from a character list. -/
def trimChars (cs : List Char) : List Char :=
  ((cs.dropWhile isJsSpace).reverse.dropWhile isJsSpace).reverse

/-- `String.prototype.trim()`. -/
def trimStr (s : String) : String :=
  ⟨trimChars s.data⟩

/-- `String.prototype.startsWith(pre)` (case-sensitive, as in the source). -/
def startsWithStr (pre s : String) : Bool :=
  pre.data.isPrefixOf s.data

/-- `raw.replace(/\/+$/, "")`: strip every trailing `/`. -/
def stripTrailingSlashes (s : String) : String :=
  ⟨(s.data.reverse.dropWhile (fun c => c = '/')).reverse⟩

/-- JavaScript `a || b` for strings (the only falsy string is `""`). -/
def jsOr (a b : String) : String :=
  if a = "" then b else a

/-! ### A model of decoded JSON values -/

/-- Decoded JSON values (numbers are modelled as integers; every numeric
field that the scripts inspect is an integer flag). -/
inductive Json where
  | null
  | bool (b : Bool)
  | num (n : Int)
  | str (s : String)
  | arr (elems : List Json)
  | obj (fields : List (String × Json))

/-- Property access `j[k]`: `none` models JavaScript `undefined`
(access on a non-object value or a missing key). -/
def lookupField (k : String) : List (String × Json) → Option Json
  | [] => none
  | p :: rest => if p.1 = k then some p.2 else lookupField k rest

/-- `j.k` for a decoded value `j`. -/
def getField (j : Json) (k : String) : Option Json :=
  match j with
  | .obj fs => lookupField k fs
  | _ => none

/-- JavaScript truthiness of a decoded JSON value. -/
def jsTruthy : Json → Bool
  | .null => false
  | .bool b => b
  | .num n => if n = 0 then false else true
  | .str s => if s = "" then false else true
  | .arr _ => true
  | .obj _ => true

/-- Truthiness of a possibly-`undefined` property (`undefined` is falsy). -/
def jsTruthyOpt : Option Json → Bool
  | some v => jsTruthy v
  | none => false

/-- `typeof j === "object"` (`null`, arrays and objects all qualify). -/
def jsTypeofObject : Json → Bool
  | .null => true
  | .arr _ => true
  | .obj _ => true
  | _ => false

mutual

/-- `String(j)`: the coercion applied by template-literal interpolation. -/
def jsDisplay : Json → String
  | .null => "null"
  | .bool b => if b then "true" else "false"
  | .num n => toString n
  | .str s => s
  | .arr es => jsDisplayList es
  | .obj _ => "[object Object]"

/-- `Array.prototype.toString`: elements joined by `,`, with `null` rendered
as the empty string. -/
def jsDisplayList : List Json → String
  | [] => ""
  | [e] => jsDisplayElem e
  | e :: es => jsDisplayElem e ++ "," ++ jsDisplayList es

/-- One array element under `Array.prototype.toString`. -/
def jsDisplayElem : Json → String
  | .null => ""
  | j => jsDisplay j

end

/-- Escaping applied by `JSON.stringify` inside string literals (the
characters that can occur in the modelled inputs). -/
def jsonEscape (s : String) : String :=
  ⟨s.data.foldr
    (fun c acc =>
      match c with
      | '"' => '\\' :: '"' :: acc
      | '\\' => '\\' :: '\\' :: acc
      | '\n' => '\\' :: 'n' :: acc
      | '\r' => '\\' :: 'r' :: acc
      | '\t' => '\\' :: 't' :: acc
      | _ => c :: acc)
    []⟩

mutual

/-- `JSON.stringify(j)` (keys kept in insertion order, as in V8). -/
def stringify : Json → String
  | .null => "null"
  | .bool b => if b then "true" else "false"
  | .num n => toString n
  | .str s => "\"" ++ jsonEscape s ++ "\""
  | .arr es => "[" ++ stringifyList es ++ "]"
  | .obj fs => "\x7b" ++ stringifyFields fs ++ "\x7d"

/-- Array elements of `JSON.stringify`, comma-separated. -/
def stringifyList : List Json → String
  | [] => ""
  | [e] => stringify e
  | e :: es => stringify e ++ "," ++ stringifyList es

/-- Object fields of `JSON.stringify`, comma-separated. -/
def stringifyFields : List (String × Json) → String
  | [] => ""
  | [(k, v)] => "\"" ++ jsonEscape k ++ "\":" ++ stringify v
  | (k, v) :: fs => "\"" ++ jsonEscape k ++ "\":" ++ stringify v ++ "," ++ stringifyFields fs

end

/-- `json.msg || dflt` followed by template-literal coercion to a string. -/
def jsOrStr (v : Option Json) (dflt : String) : String :=
  match v with
  | some m => if jsTruthy m then jsDisplay m else dflt
  | none => dflt

/-! ### Cookie Formatter (`formatCookie`, all variants share it verbatim) -/

/-- The regex `^\s*([^=]+)=([^;]*)` applied to one raw `Set-Cookie` string,
followed by `.trim()` on both capture groups.  The regex matches exactly when
the first `=` of the string is not its first character; group 1 is everything
before that `=` (the greedy `\s*` only re-splits whitespace that `.trim()`
removes anyway) and group 2 runs from after the `=` to the first `;`. -/
def parseCookiePair (s : String) : Option (String × String) :=
  let cs := s.data
  let pre := cs.takeWhile (fun c => c ≠ '=')
  if pre.length = 0 ∨ pre.length = cs.length then none
  else some (⟨trimChars pre⟩, ⟨trimChars ((cs.drop (pre.length + 1)).takeWhile (fun c => c ≠ ';'))⟩)

/-- JavaScript `Map.prototype.set`: update in place when the key is present
(keeping the original insertion position), append otherwise. -/
def mapSet (m : List (String × String)) (k v : String) : List (String × String) :=
  match m with
  | [] => [(k, v)]
  | p :: ps => if p.1 = k then (k, v) :: ps else p :: mapSet ps k v

/-- `Map.prototype.get`-style lookup on the insertion-ordered pair list. -/
def lookupKey (k : String) : List (String × String) → Option String
  | [] => none
  | p :: ps => if p.1 = k then some p.2 else lookupKey k ps

/-- The loop body of `formatCookie`: parse every raw string and insert the
pair into the `Map`. -/
def cookieFold (m : List (String × String)) : List String → List (String × String)
  | [] => m
  | s :: rest =>
    match parseCookiePair s with
    | some kv => cookieFold (mapSet m kv.1 kv.2) rest
    | none => cookieFold m rest

/-- The `cookiePairs` map built by `formatCookie`, in iteration order. -/
def cookiePairsOf (raws : List String) : List (String × String) :=
  cookieFold [] raws

/-- `Array.prototype.join(sep)`. -/
def joinSep (sep : String) : List String → String
  | [] => ""
  | [p] => p
  | p :: ps => p ++ sep ++ joinSep sep ps

/-- `formatCookie`: merge raw `Set-Cookie` values into one `Cookie` header. -/
def formatCookie (raws : List String) : String :=
  joinSep "; " ((cookiePairsOf raws).map (fun p => p.1 ++ "=" ++ p.2))

/-- Specification-side function: the value of the *last* parseable occurrence
of cookie name `k` in the raw input sequence. -/
def lastValueFor (k : String) : List String → Option String
  | [] => none
  | s :: rest =>
    match lastValueFor k rest with
    | some v => some v
    | none =>
      match parseCookiePair s with
      | some kv => if kv.1 = k then some kv.2 else none
      | none => none

/-- Specification-side function: the distinct parsed cookie names in
first-seen order, given the names already seen. -/
def firstSeenKeys (seen : List String) : List String → List String
  | [] => []
  | s :: rest =>
    match parseCookiePair s with
    | some kv =>
      if kv.1 ∈ seen then firstSeenKeys seen rest
      else kv.1 :: firstSeenKeys (seen ++ [kv.1]) rest
    | none => firstSeenKeys seen rest

/-- Left-biased choice on optional values (specification-side helper). -/
def orO (a b : Option String) : Option String :=
  match a with
  | some v => some v
  | none => b

/-! ### Session Acquirer (`getSetCookieArray`, `logIn`) -/

/-- The observable cookie-bearing part of a fetch `Headers` object:
`getSetCookieArr = none` models a runtime without `headers.getSetCookie`,
`setCookieSingle` models `headers.get("set-cookie")` (`none` = `null`). -/
structure RespHeaders where
  getSetCookieArr : Option (List String)
  setCookieSingle : Option String

/-- The fallback path of `getSetCookieArray`: a single merged `set-cookie`
value (the empty string is falsy and yields no cookie). -/
def getSetCookieFallback (h : RespHeaders) : List String :=
  match h.setCookieSingle with
  | some s => if s = "" then [] else [s]
  | none => []

/-- `getSetCookieArray(headers)`: prefer a non-empty `headers.getSetCookie()`
array, otherwise fall back to the single `set-cookie` value. -/
def getSetCookieArray (h : RespHeaders) : List String :=
  match h.getSetCookieArr with
  | some arr => if arr.length = 0 then getSetCookieFallback h else arr
  | none => getSetCookieFallback h

/-- The value returned by the single-account `logIn` on success. -/
structure LoginSession where
  cookie : String
  loginMsg : String

/-- The single-account variant's `logIn`, applied to the observed login
response: `respOk`/`status` are the transport outcome, `parsed` is
`await resp.json().catch(() => null)` (`none` = parse failure = `null`),
`headers` carries the `Set-Cookie` data. -/
def logIn (respOk : Bool) (status : Nat) (parsed : Option Json) (headers : RespHeaders) :
    Except String LoginSession :=
  if respOk = false then .error ("登录请求失败 - HTTP " ++ toString status)
  else
    match parsed with
    | none => .error "登录响应解析失败（非预期 JSON）"
    | some j =>
      if jsTruthy j = false then .error "登录响应解析失败（非预期 JSON）"
      else
        match getField j "ret" with
        | none => .error "登录响应解析失败（非预期 JSON）"
        | some (.num n) =>
          if n = 1 then
            let raw := getSetCookieArray headers
            if raw.length = 0 then .error "获取 Cookie 失败（Set-Cookie 为空）"
            else .ok ⟨formatCookie raw, jsOrStr (getField j "msg") "login ok"⟩
          else .error ("登录失败: " ++ jsOrStr (getField j "msg") "unknown error")
        | some _ => .error ("登录失败: " ++ jsOrStr (getField j "msg") "unknown error")

/-- The card variant's login result `{ok, cookies, text}`. -/
structure CardLoginRes where
  ok : Bool
  cookies : String
  text : String

/-- The card variant's `logIn`: it reads the body as plain text, never
inspects the decoded `ret` flag, and only fails (with `ok: false`) when the
merged cookie string is empty. -/
def cardLogIn (bodyText : String) (headers : RespHeaders) : CardLoginRes :=
  let cookies := formatCookie (getSetCookieArray headers)
  if cookies = "" then ⟨false, "", bodyText⟩ else ⟨true, cookies, bodyText⟩

/-! ### Check-in Invoker (`checkIn`, single-account and traffic variants) -/

/-- The single-account variant's `checkIn` applied to the observed check-in
response; the returned value `json.msg || JSON.stringify(json)` is modelled
after template-literal coercion to a string. -/
def checkIn (respOk : Bool) (status : Nat) (parsed : Option Json) : Except String String :=
  if respOk = false then .error ("签到请求失败 - HTTP " ++ toString status)
  else
    match parsed with
    | none => .error "签到响应解析失败（非预期 JSON）"
    | some j =>
      if jsTruthy j = false then .error "签到响应解析失败（非预期 JSON）"
      else
        match getField j "msg" with
        | some m => if jsTruthy m then .ok (jsDisplay m) else .ok (stringify j)
        | none => .ok (stringify j)

/-- `data?.msg ?? ""`: nullish coalescing keeps every value except
`null`/`undefined`, including the empty string. -/
def msgCoalesce (m : Option Json) : Json :=
  match m with
  | some .null => .str ""
  | some v => v
  | none => .str ""

/-- The traffic variant's `checkIn`: `response.json()` has no `.catch`, so an
undecodable body propagates the engine's `SyntaxError` (modelled by its
message); otherwise the raw `{msg, data}` pair is returned. -/
def checkInTraffic (respOk : Bool) (status : Nat) (parsed : Option Json) :
    Except String (Json × Json) :=
  if respOk = false then .error ("网络请求出错 - " ++ toString status)
  else
    match parsed with
    | none => .error "Unexpected end of JSON input"
    | some j => .ok (msgCoalesce (getField j "msg"), j)

/-! ### Notifier (`sendTelegram`, `sendTelegramHtml`) -/

/-- The observed Telegram API response: HTTP success flag, status, and the
raw body text (`await resp.text()`). -/
structure TgResp where
  ok : Bool
  status : Nat
  bodyText : String

/-- Whether the notifier is configured (both env values non-empty after
trimming), i.e. whether a notification attempt is made at all. -/
def tgConfigured (tokenEnv chatEnv : Option String) : Bool :=
  if trimStr (tokenEnv.getD "") = "" ∨ trimStr (chatEnv.getD "") = "" then false else true

/-- The single-account variant's `sendTelegram`: skip when unconfigured, fail
on a non-success HTTP status, succeed otherwise.  The response body is never
decoded on the success path. -/
def sendTelegram (tokenEnv chatEnv : Option String) (resp : TgResp) : Except String Unit :=
  if trimStr (tokenEnv.getD "") = "" ∨ trimStr (chatEnv.getD "") = "" then .ok ()
  else if resp.ok = false then
    .error (trimStr ("Telegram 通知失败: HTTP " ++ toString resp.status ++ " " ++ resp.bodyText))
  else .ok ()

/-- The card variant's `sendTelegramHtml`: identical control flow to
`sendTelegram` (it additionally logs on success, a side channel). -/
def sendTelegramHtml (tokenEnv chatEnv : Option String) (resp : TgResp) : Except String Unit :=
  if trimStr (tokenEnv.getD "") = "" ∨ trimStr (chatEnv.getD "") = "" then .ok ()
  else if resp.ok = false then
    .error (trimStr ("Telegram 通知失败: HTTP " ++ toString resp.status ++ " " ++ resp.bodyText))
  else .ok ()

/-! ### Configuration (`parseAccountFromConfig`, single-account variant) -/

/-- The account record produced by `parseAccountFromConfig`
(`name` keeps the raw `account.name || account.email` value, which is not
coerced; `email`/`passwd` are `String(...)`-coerced). -/
structure ParsedAccount where
  name : Json
  email : String
  passwd : String

/-- `account.name || account.email` on raw property values. -/
def jsOrJson (x y : Option Json) : Json :=
  match x with
  | some v => if jsTruthy v then v else y.getD .null
  | none => y.getD .null

/-- The validation applied to the selected account value (`!account`,
`typeof account !== "object"`, missing `email`/`passwd`). -/
def validateAccount (account : Option Json) : Except String ParsedAccount :=
  match account with
  | none => .error "❌ CONFIG 内容无效。"
  | some a =>
    if jsTruthy a = false ∨ jsTypeofObject a = false then .error "❌ CONFIG 内容无效。"
    else if jsTruthyOpt (getField a "email") = false ∨ jsTruthyOpt (getField a "passwd") = false then
      .error "❌ CONFIG 缺少 email/passwd。"
    else
      .ok ⟨jsOrJson (getField a "name") (getField a "email"),
           jsDisplay ((getField a "email").getD .null),
           jsDisplay ((getField a "passwd").getD .null)⟩

/-- `parseAccountFromConfig` over the observed `CONFIG` environment value:
`none` = unset (or empty, which is falsy), `some none` = `JSON.parse` threw,
`some (some j)` = the decoded value.  An array is reduced to its first
element (`obj[0]`, `undefined` on an empty array). -/
def parseAccountFromConfig (cfg : Option (Option Json)) : Except String ParsedAccount :=
  match cfg with
  | none => .error "❌ 未配置 CONFIG。"
  | some none => .error "❌ CONFIG 不是合法 JSON。"
  | some (some j) =>
    validateAccount (match j with | .arr l => l.head? | _ => some j)

/-! ### Base URL (`normalizeBaseUrl`) -/

/-- `normalizeBaseUrl(process.env.URL)`; the argument is the raw environment
value (`none` = unset, falsy like the empty string). -/
def normalizeBaseUrl (input : Option String) : String :=
  let raw := trimStr (input.getD "")
  if raw = "" then "https://ikuuu.nl"
  else if startsWithStr "http://" raw || startsWithStr "https://" raw then
    stripTrailingSlashes raw
  else "https://" ++ stripTrailingSlashes raw

/-! ### Run Coordinator, single-account variant (`main`, first script) -/

/-- The single-account `main` after configuration: the try-block outcome is
determined by the login oracle and the check-in oracle (which receives the
acquired session); the notification attempt is made afterwards and its
failure is caught and only logged.  Result: (exit code, final message,
GitHub output value, notification outcome). -/
def mainSingle (name baseUrl : String)
    (loginOutcome : Except String LoginSession)
    (checkinOutcome : LoginSession → Except String String)
    (tokenEnv chatEnv : Option String) (tgResp : TgResp) :
    Nat × String × String × Except String Unit :=
  let title := "【Ikuuu 签到】" ++ name
  let flow : Except String String :=
    match loginOutcome with
    | .error e => .error e
    | .ok sess => checkinOutcome sess
  let notifyOutcome := sendTelegram tokenEnv chatEnv tgResp
  match flow with
  | .ok m => (0, title ++ "\n✅ " ++ m ++ "\n站点：" ++ baseUrl, "✅ " ++ m, notifyOutcome)
  | .error e => (1, title ++ "\n❌ " ++ e ++ "\n站点：" ++ baseUrl, "❌ " ++ e, notifyOutcome)

/-! ### Run Coordinator, `Promise.allSettled` variant (second script) -/

/-- Is a settled result rejected (`r.status !== "fulfilled"`)? -/
def settledRejected : Except String String → Bool
  | .error _ => true
  | .ok _ => false

/-- One line of the summary: `` `${name}: ${icon} ${msg}` `` where the name is
`accounts[idx]?.name ?? `账号${idx+1}``` and rejected results render the
rejection reason. -/
def renderResultLine (idx : Nat) (account : Option Json) (r : Except String String) : String :=
  let dflt := "账号" ++ toString (idx + 1)
  let name :=
    match account with
    | some a =>
      match getField a "name" with
      | some .null => dflt
      | some v => jsDisplay v
      | none => dflt
    | none => dflt
  match r with
  | .ok v => name ++ ": ✅ " ++ v
  | .error e => name ++ ": ❌ " ++ e

/-- `results.map((r, idx) => ...)`: build the summary lines, indexing back
into the account list. -/
def buildLines (accounts : List Json) (idx : Nat) : List (Except String String) → List String
  | [] => []
  | r :: rs => renderResultLine idx (accounts.get? idx) r :: buildLines accounts (idx + 1) rs

/-- The `Promise.allSettled` variant's `main` after configuration parsing:
`run` is the per-account orchestration oracle (`processSingleAccount`,
settled independently per account).  Result: (summary lines, exit code). -/
def mainAllSettledCore (accounts : List Json) (run : Json → Except String String) :
    List String × Nat :=
  let results := accounts.map run
  (buildLines accounts 0 results, if results.any settledRejected then 1 else 0)

/-! ### Run Coordinator, sequential card variant (third script) -/

/-- `classifyStatus`: substring tests (case-insensitive, modelling the `/i`
flag) against the fail / already / success keyword lists. -/
def lcChar (c : Char) : Char := c.toLower

/-- Case-insensitive "starts with" on character lists. -/
def hasPrefixCI : List Char → List Char → Bool
  | [], _ => true
  | _ :: _, [] => false
  | p :: ps, c :: cs => if lcChar c = lcChar p then hasPrefixCI ps cs else false

/-- Case-insensitive substring containment (`/pat/i.test(s)` for a literal). -/
def containsCI (tok : List Char) : List Char → Bool
  | [] => hasPrefixCI tok []
  | c :: cs => if hasPrefixCI tok (c :: cs) then true else containsCI tok cs

/-- `/(a|b|...)/i.test(s)` for a list of literal alternatives. -/
def testAny (toks : List String) (s : String) : Bool :=
  toks.any (fun t => containsCI t.data s.data)

/-- `classifyStatus(text)`. -/
def classifyStatus (text : String) : String :=
  if testAny ["失败", "错误", "异常", "error", "fail"] text then "fail"
  else if testAny ["已签到", "已经签到", "似乎已经签到", "重复签到"] text then "already"
  else if testAny ["成功", "success"] text then "success"
  else "info"

/-- `statusEmoji(kind)`. -/
def statusEmoji (kind : String) : String :=
  if kind = "success" then "✅"
  else if kind = "already" then "⚠️"
  else if kind = "fail" then "❌"
  else "ℹ️"

/-- `prettyLoginText(raw)`. -/
def prettyLoginText (raw : String) : String :=
  let kind := classifyStatus raw
  if kind = "success" then statusEmoji kind ++ " 登录成功"
  else if kind = "fail" then statusEmoji kind ++ " 登录失败"
  else statusEmoji kind ++ " " ++ jsOr raw "登录信息"

/-- `prettyCheckinText(raw)`. -/
def prettyCheckinText (raw : String) : String :=
  let kind := classifyStatus raw
  if kind = "success" then statusEmoji kind ++ " 签到成功"
  else if kind = "already" then statusEmoji kind ++ " 已签到（无需重复）"
  else statusEmoji kind ++ " " ++ jsOr raw "签到结果未知"

/-- `buildAccountBlock(name, {loginRaw, checkinRaw, extraRaw})`. -/
def buildAccountBlock (name : String) (loginRaw checkinRaw : Option String)
    (extraRaw : List String) : List String :=
  ("👤 " ++ name)
    :: ((match loginRaw with
         | some l => ["  🔐 " ++ prettyLoginText l]
         | none => [])
      ++ (match checkinRaw with
          | some c => ["  🎯 " ++ prettyCheckinText c]
          | none => [])
      ++ extraRaw.map (fun x => "  🧾 " ++ statusEmoji (classifyStatus x) ++ " " ++ x))

/-- One iteration of the card variant's per-account loop, given the observed
outcomes of its two awaited actions (`.error` = the action threw, landing in
the `catch` block). -/
def cardBlock (name : String) (loginOutcome : Except String CardLoginRes)
    (checkinOutcome : Except String (Bool × Option Json)) : List String :=
  match loginOutcome with
  | .error e => buildAccountBlock name (some "异常") none ["异常：" ++ e]
  | .ok lr =>
    if lr.ok = false then
      buildAccountBlock name (some "登录失败（未获取到会话 Cookie）") none
        ["请检查账号密码 / 站点是否变更 / 是否需要验证码"]
    else
      match checkinOutcome with
      | .error e => buildAccountBlock name (some "异常") none ["异常：" ++ e]
      | .ok cr =>
        let msg := jsOrStr (match cr.2 with | some j => getField j "msg" | none => none)
          (if cr.1 then "签到请求已发送" else "签到请求失败")
        buildAccountBlock name (some "登录成功") (some msg) []

/-- One account's data for a card-variant run: its (coerced) name and the
outcomes of its login and check-in actions. -/
structure CardAccountRun where
  name : String
  loginOutcome : Except String CardLoginRes
  checkinOutcome : Except String (Bool × Option Json)

/-- The card variant's main loop: each account contributes its block followed
by a blank separator line. -/
def cardSummaryLines : List CardAccountRun → List String
  | [] => []
  | r :: rs => cardBlock r.name r.loginOutcome r.checkinOutcome ++ [""] ++ cardSummaryLines rs

/-- The trailing-blank-line pop (`while (... === "") summaryLines.pop()`). -/
def dropTrailingEmpty (l : List String) : List String :=
  (l.reverse.dropWhile (fun s => s = "")).reverse

/-- The card variant's main after configuration parsing: summary lines and
process exit code.  The notification outcome is caught and logged; no branch
of the loop or of the notification handling sets a non-zero exit code. -/
def cardMainCore (runs : List CardAccountRun) (notifyOutcome : Except String Unit) :
    List String × Nat :=
  let lines := dropTrailingEmpty (cardSummaryLines runs)
  let _ := notifyOutcome
  (lines, 0)

/-! ### Traffic Scraper (`parseTraffic`, `parseEarnedFromMsg`, `pickFirst`) -/

/-- `[0-9.]` character class. -/
def isDigitDot (c : Char) : Bool :=
  if c.isDigit then true else c = '.'

/-- The alternation `(?:B|KB|MB|GB|TB)` under the `/i` flag, tried in order
at the current position; returns the matched characters. -/
def matchUnitAlt : List Char → Option (List Char)
  | [] => none
  | c1 :: rest1 =>
    if lcChar c1 = 'b' then some [c1]
    else
      match rest1 with
      | c2 :: _ =>
        if (lcChar c1 = 'k' ∨ lcChar c1 = 'm' ∨ lcChar c1 = 'g' ∨ lcChar c1 = 't')
            ∧ lcChar c2 = 'b' then some [c1, c2]
        else none
      | [] => none

/-- The capture group `([0-9.]+\s*(?:B|KB|MB|GB|TB))` anchored at the current
position (the greedy sub-parts never need to backtrack because the three
character classes are pairwise disjoint). -/
def matchAmount (cs : List Char) : Option (List Char) :=
  let digits := cs.takeWhile isDigitDot
  if digits.length = 0 then none
  else
    let rest1 := cs.drop digits.length
    let ws := rest1.takeWhile isJsSpace
    match matchUnitAlt (rest1.drop ws.length) with
    | some u => some (digits ++ ws ++ u)
    | none => none

/-- `\s*` followed by the amount capture group. -/
def skipWsAmount (cs : List Char) : Option (List Char) :=
  matchAmount (cs.dropWhile isJsSpace)

/-- `/获得了?\s*([0-9.]+\s*(?:B|KB|MB|GB|TB))/i` anchored at the current
position; the optional `了` is greedy with backtracking. -/
def matchP1At : List Char → Option (List Char)
  | '获' :: '得' :: rest =>
    (match rest with
     | '了' :: rest2 =>
       (match skipWsAmount rest2 with
        | some g => some g
        | none => skipWsAmount rest)
     | _ => skipWsAmount rest)
  | _ => none

/-- `/\+\s*([0-9.]+\s*(?:B|KB|MB|GB|TB))/i` anchored at the current position. -/
def matchP2At : List Char → Option (List Char)
  | '+' :: rest => skipWsAmount rest
  | _ => none

/-- Leftmost-match search: `String.prototype.match` without the `g` flag
tries the anchored pattern at each position from the left. -/
def scanFor (p : List Char → Option (List Char)) : List Char → Option (List Char)
  | [] => p []
  | c :: cs =>
    match p (c :: cs) with
    | some g => some g
    | none => scanFor p cs

/-- `m[1].replace(/\s+/g, " ")`: collapse every whitespace run to one space. -/
def collapseWsGo (inRun : Bool) : List Char → List Char
  | [] => []
  | c :: cs =>
    if isJsSpace c then
      if inRun then collapseWsGo true cs else ' ' :: collapseWsGo true cs
    else c :: collapseWsGo false cs

/-- `collapseWs` applied from outside a whitespace run. -/
def collapseWs (cs : List Char) : List Char :=
  collapseWsGo false cs

/-- `parseEarnedFromMsg(msg)`: first pattern match wins, whitespace inside
the captured amount is normalized, no match yields the empty string. -/
def parseEarnedFromMsg (msg : String) : String :=
  match scanFor matchP1At msg.data with
  | some g => ⟨trimChars (collapseWs g)⟩
  | none =>
    match scanFor matchP2At msg.data with
    | some g => ⟨trimChars (collapseWs g)⟩
    | none => ""

/-- `[^<\n]` character class of the traffic capture groups. -/
def capClass (c : Char) : Bool :=
  if c = '<' then false else if c = '\n' then false else true

/-- `\s*([^<\n]+)` anchored at the current position, with the regex engine's
greedy-then-backtrack behaviour of `\s*` (a space may be given back to the
capture group when nothing else can start it). -/
def matchWsCap : List Char → Option (List Char)
  | [] => none
  | c :: rest =>
    if isJsSpace c then
      match matchWsCap rest with
      | some g => some g
      | none => if capClass c then some ((c :: rest).takeWhile capClass) else none
    else if capClass c then some ((c :: rest).takeWhile capClass) else none

/-- Case-insensitive literal match, returning the remaining input. -/
def dropLitCI : List Char → List Char → Option (List Char)
  | [], cs => some cs
  | _ :: _, [] => none
  | p :: ps, c :: cs => if lcChar c = lcChar p then dropLitCI ps cs else none

/-- A sequence of case-insensitive literal words separated by `\s*`
(`Remaining\s*Traffic` is `["Remaining", "Traffic"]`); returns the rest of
the input after the literals (the greedy `\s*` between two words never
backtracks, since a word starts with a non-space character). -/
def matchTokens : List String → List Char → Option (List Char)
  | [], cs => some cs
  | t :: ts, cs =>
    match dropLitCI t.data cs with
    | some r => matchTokens ts (if ts.isEmpty then r else r.dropWhile isJsSpace)
    | none => none

/-- One traffic pattern `lit..lit[:：]\s*([^<\n]+)` anchored at the current
position. -/
def matchTrafficPatAt (toks : List String) (cs : List Char) : Option (List Char) :=
  match matchTokens toks cs with
  | some r =>
    match r with
    | c :: rest => if c = ':' ∨ c = '：' then matchWsCap rest else none
    | [] => none
  | none => none

/-- `pickFirst(html, patterns)`: try each pattern in order and return the
trimmed first capture group of the first one that matches (the capture is
always non-empty, so `m?.[1]` is truthy exactly when the pattern matched). -/
def pickFirst (html : String) : List (List String) → String
  | [] => ""
  | p :: rest =>
    match scanFor (matchTrafficPatAt p) html.data with
    | some g => ⟨trimChars g⟩
    | none => pickFirst html rest

/-- The three extracted traffic fields. -/
structure TrafficInfo where
  remaining : String
  usedTotal : String
  usedToday : String

/-- `parseTraffic(html)` (the `|| ""` in the source is the identity, since
`pickFirst` already returns `""` on no match). -/
def parseTraffic (html : String) : TrafficInfo :=
  ⟨pickFirst html [["剩余流量"], ["可用流量"], ["Remaining", "Traffic"]],
   pickFirst html [["累计已用"], ["已用流量"], ["总共已用"], ["Used", "Traffic"]],
   pickFirst html [["今日已用"], ["今日使用"], ["Today", "Used"]]⟩

/-- The pure summary-building tail of `processSingleAccount`: the earned
amount defaults to `"0"`, `usedTotal`/`remaining` default to `"获取失败"`,
and `usedToday` is included only when non-empty. -/
def processSummary (checkinMsg html : String) : String :=
  let earned := jsOr (parseEarnedFromMsg checkinMsg) "0"
  let t := parseTraffic html
  joinSep "｜"
    (["领取：" ++ earned, "累计已用：" ++ jsOr t.usedTotal "获取失败"]
      ++ (if t.usedToday = "" then [] else ["今日已用：" ++ t.usedToday])
      ++ ["剩余：" ++ jsOr t.remaining "获取失败"])

/-! ## Helper lemmas -/

/-! ### Cookie map lemmas -/

theorem lookupKey_mapSet (m : List (String × String)) (k v k' : String) :
    lookupKey k' (mapSet m k v) = if k' = k then some v else lookupKey k' m := by
  induction m with
  | nil =>
    simp only [mapSet, lookupKey]
    by_cases h : k' = k
    · rw [if_pos h.symm, if_pos h]
    · rw [if_neg (fun hh : k = k' => h hh.symm), if_neg h]
  | cons p ps ih =>
    simp only [mapSet]
    by_cases hp : p.1 = k
    · rw [if_pos hp]
      simp only [lookupKey]
      by_cases h : k' = k
      · rw [if_pos h.symm, if_pos h]
      · have hpk : ¬ p.1 = k' := fun hh => h (hh.symm.trans hp)
        rw [if_neg (fun hh : k = k' => h hh.symm), if_neg h, if_neg hpk]
    · rw [if_neg hp]
      simp only [lookupKey]
      by_cases hpk : p.1 = k'
      · have h : ¬ k' = k := fun hh => hp (hpk.trans hh)
        rw [if_pos hpk, if_neg h, if_pos hpk]
      · rw [if_neg hpk, ih, if_neg hpk]

theorem keys_mapSet (m : List (String × String)) (k v : String) :
    (mapSet m k v).map Prod.fst =
      if k ∈ m.map Prod.fst then m.map Prod.fst else m.map Prod.fst ++ [k] := by
  induction m with
  | nil => simp [mapSet]
  | cons p ps ih =>
    simp only [mapSet]
    by_cases hp : p.1 = k
    · simp [hp]
    · have : ¬ k = p.1 := fun h => hp h.symm
      simp only [List.map_cons, List.mem_cons, this, false_or]
      rw [if_neg hp, List.map_cons, ih]
      by_cases hmem : k ∈ ps.map Prod.fst
      · simp [hmem]
      · simp [hmem]

theorem lookupKey_cookieFold (raws : List String) :
    ∀ (m : List (String × String)) (k : String),
      lookupKey k (cookieFold m raws) = orO (lastValueFor k raws) (lookupKey k m) := by
  induction raws with
  | nil => intro m k; simp [cookieFold, lastValueFor, orO]
  | cons s rest ih =>
    intro m k
    cases hp : parseCookiePair s with
    | none =>
      simp only [cookieFold, lastValueFor, hp]
      rw [ih m k]
      cases lastValueFor k rest <;> simp [orO]
    | some kv =>
      simp only [cookieFold, lastValueFor, hp]
      rw [ih (mapSet m kv.1 kv.2) k]
      cases hrest : lastValueFor k rest with
      | some v => simp [orO]
      | none =>
        simp only [orO, lookupKey_mapSet]
        by_cases hk : kv.1 = k
        · subst hk; simp
        · rw [if_neg (fun h : k = kv.1 => hk h.symm), if_neg hk]

theorem keys_cookieFold (raws : List String) :
    ∀ m : List (String × String),
      (cookieFold m raws).map Prod.fst =
        m.map Prod.fst ++ firstSeenKeys (m.map Prod.fst) raws := by
  induction raws with
  | nil => intro m; simp [cookieFold, firstSeenKeys]
  | cons s rest ih =>
    intro m
    cases hp : parseCookiePair s with
    | none => simp only [cookieFold, firstSeenKeys, hp]; simp [ih m]
    | some kv =>
      simp only [cookieFold, firstSeenKeys, hp]
      rw [ih (mapSet m kv.1 kv.2), keys_mapSet]
      by_cases hmem : kv.1 ∈ m.map Prod.fst
      · simp [hmem]
      · simp only [hmem, if_neg hmem, if_false]
        rw [List.append_assoc]
        simp

theorem firstSeenKeys_nodup (raws : List String) :
    ∀ seen : List String, seen.Nodup → (seen ++ firstSeenKeys seen raws).Nodup := by
  induction raws with
  | nil => intro seen h; simpa [firstSeenKeys]
  | cons s rest ih =>
    intro seen hseen
    cases hp : parseCookiePair s with
    | none => simpa only [firstSeenKeys, hp] using ih seen hseen
    | some kv =>
      simp only [firstSeenKeys, hp]
      by_cases hmem : kv.1 ∈ seen
      · simpa [hmem] using ih seen hseen
      · rw [if_neg hmem]
        have hnodup : (seen ++ [kv.1]).Nodup := by
          simp [List.nodup_append, hseen, hmem]
        have := ih (seen ++ [kv.1]) hnodup
        rwa [List.append_assoc, List.singleton_append] at this

theorem cookieFold_filter (raws : List String) :
    ∀ m : List (String × String),
      cookieFold m raws = cookieFold m (raws.filter fun s => (parseCookiePair s).isSome) := by
  induction raws with
  | nil => intro m; simp [cookieFold]
  | cons s rest ih =>
    intro m
    cases hp : parseCookiePair s with
    | none => simpa [cookieFold, List.filter_cons, hp] using ih m
    | some kv => simpa [cookieFold, List.filter_cons, hp] using ih (mapSet m kv.1 kv.2)

/-! ### Leftmost-match scanner lemmas -/

theorem scanFor_eq_none (p : List Char → Option (List Char)) (l : List Char) :
    scanFor p l = none ↔ ∀ i, p (l.drop i) = none := by
  induction l with
  | nil =>
    simp only [scanFor]
    constructor
    · intro h i; simpa using h
    · intro h; simpa using h 0
  | cons c cs ih =>
    simp only [scanFor]
    cases hp : p (c :: cs) with
    | some g =>
      constructor
      · intro h; exact absurd h (by simp)
      · intro h; have := h 0; simp [hp] at this
    | none =>
      rw [ih]
      constructor
      · intro h i
        cases i with
        | zero => simpa using hp
        | succ j => simpa using h j
      · intro h i; simpa using h (i + 1)

theorem scanFor_first (p : List Char → Option (List Char)) (l : List Char) :
    ∀ (i : Nat) (g : List Char), p (l.drop i) = some g →
      (∀ j, j < i → p (l.drop j) = none) → scanFor p l = some g := by
  induction l with
  | nil =>
    intro i g hg _
    simp only [List.drop_nil] at hg
    simpa [scanFor] using hg
  | cons c cs ih =>
    intro i g hg hnone
    cases i with
    | zero =>
      simp only [List.drop_zero] at hg
      simp [scanFor, hg]
    | succ j =>
      have h0 : p (c :: cs) = none := by simpa using hnone 0 (Nat.succ_pos j)
      simp only [scanFor, h0]
      exact ih j g (by simpa using hg)
        (fun j' hj' => by simpa using hnone (j' + 1) (Nat.succ_lt_succ hj'))

/-! ### Join / membership lemmas -/

theorem mem_joinSep (sep : String) (parts : List String) (p : String) (hp : p ∈ parts) :
    p.data <:+: (joinSep sep parts).data := by
  induction parts with
  | nil => cases hp
  | cons q qs ih =>
    cases qs with
    | nil =>
      rcases List.mem_singleton.mp hp with rfl
      exact ⟨[], [], by simp [joinSep]⟩
    | cons r rs =>
      rcases List.mem_cons.mp hp with rfl | hmem
      · exact ⟨[], (sep ++ joinSep sep (r :: rs)).data, by
          simp [joinSep, String.data_append]⟩
      · rcases ih hmem with ⟨s, t, hst⟩
        exact ⟨(q ++ sep).data ++ s, t, by
          simp only [joinSep, String.data_append, List.append_assoc, hst]⟩

theorem mem_dropWhileStr (l : List String) (x : String) (hx : ¬ x = "") (h : x ∈ l) :
    x ∈ l.dropWhile (fun s => s = "") := by
  induction l with
  | nil => cases h
  | cons y ys ih =>
    by_cases hy : y = ""
    · rw [List.dropWhile_cons_of_pos (by simp [hy])]
      rcases List.mem_cons.mp h with rfl | hmem
      · exact absurd hy hx
      · exact ih hmem
    · rw [List.dropWhile_cons_of_neg (by simp [hy])]
      exact h

theorem mem_dropTrailingEmpty (l : List String) (x : String) (hx : ¬ x = "") (h : x ∈ l) :
    x ∈ dropTrailingEmpty l := by
  unfold dropTrailingEmpty
  rw [List.mem_reverse]
  exact mem_dropWhileStr _ x hx (List.mem_reverse.mpr h)

/-! ### `Promise.allSettled` coordinator lemmas -/

theorem buildLines_length (accounts : List Json) :
    ∀ (idx : Nat) (rs : List (Except String String)),
      (buildLines accounts idx rs).length = rs.length := by
  intro idx rs
  induction rs generalizing idx with
  | nil => rfl
  | cons r rest ih => simp [buildLines, ih]

theorem buildLines_get (accounts : List Json) :
    ∀ (rs : List (Except String String)) (idx i : Nat),
      (buildLines accounts idx rs).get? i =
        (rs.get? i).map (fun r => renderResultLine (idx + i) (accounts.get? (idx + i)) r) := by
  intro rs
  induction rs with
  | nil => intro idx i; simp [buildLines]
  | cons r rest ih =>
    intro idx i
    cases i with
    | zero => simp [buildLines]
    | succ j =>
      simp only [buildLines, List.get?_cons_succ, ih (idx + 1) j]
      rw [Nat.add_assoc, Nat.add_comm 1 j]

theorem mainAllSettled_line (accounts : List Json) (run : Json → Except String String)
    (i : Nat) :
    (mainAllSettledCore accounts run).1.get? i =
      ((accounts.get? i).map run).map
        (fun r => renderResultLine i (accounts.get? i) r) := by
  unfold mainAllSettledCore
  rw [buildLines_get accounts (accounts.map run) 0 i]
  simp [List.get?_map]

/-! ### Card coordinator lemmas -/

theorem cardBlock_head (name : String) (lo : Except String CardLoginRes)
    (co : Except String (Bool × Option Json)) :
    ("👤 " ++ name) ∈ cardBlock name lo co := by
  cases lo with
  | error e => exact List.mem_cons_self _ _
  | ok lr =>
    by_cases h : lr.ok = false
    · simp only [cardBlock, h, if_true]
      exact List.mem_cons_self _ _
    · cases co with
      | error e => simp only [cardBlock, h, if_false]; exact List.mem_cons_self _ _
      | ok cr => simp only [cardBlock, h, if_false]; exact List.mem_cons_self _ _

theorem mem_cardSummaryLines (runs : List CardAccountRun) (r : CardAccountRun)
    (h : r ∈ runs) :
    ("👤 " ++ r.name) ∈ cardSummaryLines runs := by
  induction runs with
  | nil => cases h
  | cons q qs ih =>
    rcases List.mem_cons.mp h with rfl | hmem
    · exact List.mem_append.mpr (Or.inl (List.mem_append.mpr (Or.inl (cardBlock_head _ _ _))))
    · exact List.mem_append.mpr (Or.inr (ih hmem))

/-! ## Claim theorems -/

/-- C4: Cookie Formatter — for every sequence of raw `Set-Cookie` strings,
the merged map contains each distinct (trimmed) cookie name at most once
(`Nodup` keys); the value kept for each name is the one from the last
parseable occurrence of that name in the input sequence (`lastValueFor`);
the output name order is first-seen order (`firstSeenKeys`); and entries not
matching the `name=value` shape are skipped silently — filtering them out of
the input leaves the output unchanged. -/
theorem c4_formatCookie_claim (raws : List String) :
    ((cookiePairsOf raws).map Prod.fst).Nodup
    ∧ (∀ k, lookupKey k (cookiePairsOf raws) = lastValueFor k raws)
    ∧ (cookiePairsOf raws).map Prod.fst = firstSeenKeys [] raws
    ∧ formatCookie raws = formatCookie (raws.filter fun s => (parseCookiePair s).isSome) := by
  have hkeys : (cookiePairsOf raws).map Prod.fst = firstSeenKeys [] raws := by
    have hk := keys_cookieFold raws []
    simpa [cookiePairsOf] using hk
  refine ⟨?_, ?_, hkeys, ?_⟩
  · rw [hkeys]
    have := firstSeenKeys_nodup raws [] List.nodup_nil
    simpa using this
  · intro k
    rw [cookiePairsOf, lookupKey_cookieFold]
    cases lastValueFor k raws <;> simp [orO, lookupKey]
  · rw [formatCookie, formatCookie, cookiePairsOf, cookiePairsOf, cookieFold_filter]

/-- The spec's own worked example for the Cookie Formatter. -/
example : formatCookie ["a=1; Path=/", "b=2", "a=3"] = "a=3; b=2" := by decide

/-- C8: single-account CONFIG parsing — when the `CONFIG` value decodes to a
JSON array, only the first element is used (validated exactly as a
single-object `CONFIG` would be), and the remaining elements are silently
ignored: the result does not depend on them. -/
theorem c8_config_array_first (a : Json) (rest rest' : List Json) :
    parseAccountFromConfig (some (some (.arr (a :: rest)))) = validateAccount (some a)
    ∧ parseAccountFromConfig (some (some (.arr (a :: rest))))
      = parseAccountFromConfig (some (some (.arr (a :: rest')))) :=
  ⟨rfl, rfl⟩

/-- C9: base URL defaulting — an absent input, or one trimming to the empty
string, yields exactly `https://ikuuu.nl`; a trimmed input already starting
with `http://` or `https://` is kept as-is apart from stripping trailing
slashes; any other non-empty trimmed input is prefixed with `https://` and
has its trailing slashes stripped. -/
theorem c9_normalizeBaseUrl :
    normalizeBaseUrl none = "https://ikuuu.nl"
    ∧ (∀ s, trimStr s = "" → normalizeBaseUrl (some s) = "https://ikuuu.nl")
    ∧ (∀ s, (startsWithStr "http://" (trimStr s) = true
          ∨ startsWithStr "https://" (trimStr s) = true) →
        normalizeBaseUrl (some s) = stripTrailingSlashes (trimStr s))
    ∧ (∀ s, trimStr s ≠ "" → startsWithStr "http://" (trimStr s) = false →
        startsWithStr "https://" (trimStr s) = false →
        normalizeBaseUrl (some s) = "https://" ++ stripTrailingSlashes (trimStr s)) := by
  refine ⟨rfl, ?_, ?_, ?_⟩
  · intro s h
    simp [normalizeBaseUrl, h]
  · intro s h
    have hne : ¬ trimStr s = "" := by
      intro he
      rw [he] at h
      rcases h with h | h <;> exact absurd h (by decide)
    simp only [normalizeBaseUrl, Option.getD_some]
    rw [if_neg hne, if_pos]
    rcases h with h | h <;> simp [h]
  · intro s hne h1 h2
    simp only [normalizeBaseUrl, Option.getD_some]
    rw [if_neg hne, if_neg]
    simp [h1, h2]

/-- Witness for C9 at concrete inputs: whitespace-only, already-qualified
with trailing slashes, and a bare host. -/
theorem c9_witness :
    normalizeBaseUrl (some "   ") = "https://ikuuu.nl"
    ∧ normalizeBaseUrl (some "https://ikuuu.nl//") = "https://ikuuu.nl"
    ∧ normalizeBaseUrl (some "ikuuu.de/") = "https://ikuuu.de" :=
  ⟨c9_normalizeBaseUrl.2.1 "   " (by decide),
   (c9_normalizeBaseUrl.2.2.1 "https://ikuuu.nl//" (Or.inr (by decide))).trans (by decide),
   (c9_normalizeBaseUrl.2.2.2 "ikuuu.de/" (by decide) (by decide) (by decide)).trans (by decide)⟩

/-- A decoded Telegram response body with an application-level failure flag. -/
def tgNotOkBody : Json := Json.obj [("ok", Json.bool false)]

/-- C2 counterexample: the claim is false on the code.  With the notifier
configured, an HTTP-success (200) response whose body is `{"ok":false}` is
treated as a successful notification by both `sendTelegram` and
`sendTelegramHtml` — the response body is never decoded on the success
path — while the claim demands a `NotifyError`. -/
theorem c2_counterexample :
    tgConfigured (some "123:abc") (some "456") = true
    ∧ stringify tgNotOkBody = "\x7b\"ok\":false\x7d"
    ∧ sendTelegram (some "123:abc") (some "456") ⟨true, 200, stringify tgNotOkBody⟩ = .ok ()
    ∧ sendTelegramHtml (some "123:abc") (some "456") ⟨true, 200, stringify tgNotOkBody⟩ = .ok () :=
  ⟨rfl, rfl, rfl, rfl⟩

/-- C2 amended: the notifier treats every HTTP-success response as delivered
without inspecting the body; only a non-success HTTP status yields the
notification error (embedding status and body text); when unconfigured, no
attempt is made and the result is success. -/
theorem c2_amended :
    (∀ te ce r, r.ok = true →
       sendTelegram te ce r = .ok () ∧ sendTelegramHtml te ce r = .ok ())
    ∧ (∀ te ce r, tgConfigured te ce = true → r.ok = false →
        sendTelegram te ce r =
          .error (trimStr ("Telegram 通知失败: HTTP " ++ toString r.status ++ " " ++ r.bodyText)))
    ∧ (∀ te ce r, tgConfigured te ce = false → sendTelegram te ce r = .ok ()) := by
  refine ⟨?_, ?_, ?_⟩
  · intro te ce r h
    constructor
    · simp [sendTelegram, h]
    · simp [sendTelegramHtml, h]
  · intro te ce r hc hr
    unfold tgConfigured at hc
    split at hc
    · exact absurd hc (by decide)
    · rename_i h
      simp [sendTelegram, h, hr]
  · intro te ce r hc
    unfold tgConfigured at hc
    split at hc
    · rename_i h
      simp [sendTelegram, h]
    · exact absurd hc (by decide)

/-- Witness for C2's amended theorem at concrete inputs. -/
theorem c2_witness :
    sendTelegram (some "123:abc") (some "456") ⟨true, 200, "whatever"⟩ = .ok ()
    ∧ sendTelegram (some "123:abc") (some "456") ⟨false, 500, "boom"⟩
        = .error "Telegram 通知失败: HTTP 500 boom"
    ∧ sendTelegram none none ⟨false, 500, "boom"⟩ = .ok () :=
  ⟨(c2_amended.1 (some "123:abc") (some "456") ⟨true, 200, "whatever"⟩ rfl).1,
   (c2_amended.2.1 (some "123:abc") (some "456") ⟨false, 500, "boom"⟩ (by decide) rfl).trans
     (congrArg Except.error (by decide)),
   c2_amended.2.2 none none ⟨false, 500, "boom"⟩ (by decide)⟩

/-- A check-in response body whose `msg` field is the empty string. -/
def emptyMsgBody : Json := Json.obj [("msg", Json.str "")]

/-- C6 counterexample: the claim is false on the code as stated.  A
success-status check-in response whose decodable JSON body contains the
`msg` field `""` does not yield that message verbatim: the single-account
`checkIn` returns `JSON.stringify(json)` instead, because the empty string
is falsy under `||`. -/
theorem c6_counterexample :
    checkIn true 200 (some emptyMsgBody) = .ok (stringify emptyMsgBody)
    ∧ stringify emptyMsgBody = "\x7b\"msg\":\"\"\x7d"
    ∧ ("\x7b\"msg\":\"\"\x7d" : String) ≠ "" :=
  ⟨rfl, rfl, by decide⟩

/-- C6 amended: a success-status check-in response with a truthy `msg`
(in particular any non-empty string) yields that message verbatim with no
success-sentinel validation; a falsy `msg` makes the single-account variant
return the JSON-serialized body instead, while the traffic variant
(`data?.msg ?? ""`) returns even an empty-string `msg` verbatim. -/
theorem c6_amended :
    (∀ status j s, jsTruthy j = true → getField j "msg" = some (Json.str s) → s ≠ "" →
       checkIn true status (some j) = .ok s)
    ∧ (∀ status j m, jsTruthy j = true → getField j "msg" = some m → jsTruthy m = false →
       checkIn true status (some j) = .ok (stringify j))
    ∧ (∀ status j s, getField j "msg" = some (Json.str s) →
       checkInTraffic true status (some j) = .ok (Json.str s, j)) := by
  refine ⟨?_, ?_, ?_⟩
  · intro status j s hj hm hs
    have hts : jsTruthy (Json.str s) = true := by simp [jsTruthy, hs]
    simp [checkIn, hj, hm, hts, jsDisplay]
  · intro status j m hj hm hmf
    simp [checkIn, hj, hm, hmf]
  · intro status j s hm
    simp [checkInTraffic, hm, msgCoalesce]

/-- Witness for C6's amended theorem: a response with `ret` 0 but a normal
message is still a successful check-in result (no sentinel validation), and
the traffic variant returns an empty `msg` verbatim. -/
theorem c6_witness :
    checkIn true 200 (some (Json.obj [("ret", Json.num 0), ("msg", Json.str "明日再来")]))
      = .ok "明日再来"
    ∧ checkInTraffic true 200 (some emptyMsgBody) = .ok (Json.str "", emptyMsgBody) :=
  ⟨c6_amended.1 200 (Json.obj [("ret", Json.num 0), ("msg", Json.str "明日再来")]) "明日再来"
     rfl rfl (by decide),
   c6_amended.2.2 200 emptyMsgBody "" rfl⟩

/-- A typical non-JSON body the remote service can return instead of JSON. -/
def htmlErrorPage : String :=
  "<html><head><title>Attention Required</title></head><body>Checking your browser before accessing ikuuu.</body></html>"

/-- C7 counterexample: the claim is false on the code.  An undecodable body
(e.g. an HTML page) makes the login/check-in decode branches fail with a
fixed message that contains neither the HTTP status, nor the content type,
nor the first 200 characters of the body. -/
theorem c7_counterexample :
    checkIn true 503 none = .error "签到响应解析失败（非预期 JSON）"
    ∧ logIn true 503 none ⟨none, none⟩ = .error "登录响应解析失败（非预期 JSON）"
    ∧ ¬ (htmlErrorPage.data.take 200 <:+: ("签到响应解析失败（非预期 JSON）" : String).data)
    ∧ ¬ (htmlErrorPage.data.take 200 <:+: ("登录响应解析失败（非预期 JSON）" : String).data) :=
  ⟨rfl, rfl, by decide, by decide⟩

/-- C7 amended: an empty or undecodable body (modelled by `parsed = none`,
since `JSON.parse` fails on both) and a falsy or `ret`-less decoded value
all fail with a fixed per-step message carrying no status, content-type or
body preview; a truthy decoded JSON value is passed on unchanged (check-in
succeeds on it; login proceeds to the `ret` check). -/
theorem c7_amended :
    (∀ status, checkIn true status none = .error "签到响应解析失败（非预期 JSON）")
    ∧ (∀ status j, jsTruthy j = false →
        checkIn true status (some j) = .error "签到响应解析失败（非预期 JSON）")
    ∧ (∀ status j, jsTruthy j = true → ∃ s, checkIn true status (some j) = .ok s)
    ∧ (∀ status hdrs, logIn true status none hdrs = .error "登录响应解析失败（非预期 JSON）")
    ∧ (∀ status hdrs j, jsTruthy j = true → getField j "ret" = none →
        logIn true status (some j) hdrs = .error "登录响应解析失败（非预期 JSON）") := by
  refine ⟨?_, ?_, ?_, ?_, ?_⟩
  · intro status; rfl
  · intro status j hj
    simp [checkIn, hj]
  · intro status j hj
    cases hm : getField j "msg" with
    | none => exact ⟨stringify j, by simp [checkIn, hj, hm]⟩
    | some m =>
      by_cases ht : jsTruthy m = true
      · exact ⟨jsDisplay m, by simp [checkIn, hj, hm, ht]⟩
      · exact ⟨stringify j, by simp [checkIn, hj, hm,
          (Bool.not_eq_true (jsTruthy m)).mp ht]⟩
  · intro status hdrs; rfl
  · intro status hdrs j hj hret
    simp [logIn, hj, hret]

/-- Witness for C7's amended theorem at concrete inputs. -/
theorem c7_witness :
    checkIn true 403 none = .error "签到响应解析失败（非预期 JSON）"
    ∧ logIn true 500 (some (Json.obj [("error", Json.str "x")])) ⟨none, none⟩
        = .error "登录响应解析失败（非预期 JSON）" :=
  ⟨c7_amended.1 403,
   c7_amended.2.2.2.2 500 ⟨none, none⟩ (Json.obj [("error", Json.str "x")]) rfl rfl⟩

/-- A decoded login-failure response body: flag `ret` is `0`, not the
success sentinel `1`. -/
def failLoginBody : Json := Json.obj [("ret", Json.num 0), ("msg", Json.str "邮箱或密码错误")]

/-- Response headers that do carry `Set-Cookie` values. -/
def cexCookieHeaders : RespHeaders := ⟨some ["uid=123; path=/", "email=a%40b; path=/"], none⟩

/-- C3 counterexample: the claim is false on the code as a statement about
every login variant.  The card variant's `logIn` never inspects the decoded
success flag: presented with a response whose decoded `ret` is `0` (with
the service's failure message) but which sets cookies, it succeeds instead
of failing. -/
theorem c3_counterexample :
    getField failLoginBody "ret" = some (Json.num 0)
    ∧ getField failLoginBody "msg" = some (Json.str "邮箱或密码错误")
    ∧ (cardLogIn (stringify failLoginBody) cexCookieHeaders).ok = true
    ∧ (cardLogIn (stringify failLoginBody) cexCookieHeaders).cookies = "uid=123; email=a%40b" :=
  ⟨rfl, rfl, by decide, by decide⟩

/-- C3 amended: in the single-account variant, a decoded success flag other
than `ret == 1` fails with the service's own message embedded, and a
sentinel flag with zero extracted `Set-Cookie` values (both the primary
`getSetCookie` path and the single-value fallback empty) also fails; the
card variant, however, never checks `ret` — its login succeeds exactly when
the merged cookie string is non-empty. -/
theorem c3_amended :
    (∀ status j hdrs n s, jsTruthy j = true → getField j "ret" = some (Json.num n) → n ≠ 1 →
       getField j "msg" = some (Json.str s) → s ≠ "" →
       logIn true status (some j) hdrs = .error ("登录失败: " ++ s))
    ∧ (∀ status j hdrs, jsTruthy j = true → getField j "ret" = some (Json.num 1) →
       getSetCookieArray hdrs = [] →
       logIn true status (some j) hdrs = .error "获取 Cookie 失败（Set-Cookie 为空）")
    ∧ (∀ text hdrs, (cardLogIn text hdrs).ok = true
         ↔ formatCookie (getSetCookieArray hdrs) ≠ "") := by
  refine ⟨?_, ?_, ?_⟩
  · intro status j hdrs n s hj hret hn hm hs
    have hts : jsTruthy (Json.str s) = true := by simp [jsTruthy, hs]
    simp [logIn, hj, hret, hn, jsOrStr, hm, hts, jsDisplay]
  · intro status j hdrs hj hret hcookie
    simp [logIn, hj, hret, hcookie]
  · intro text hdrs
    by_cases h : formatCookie (getSetCookieArray hdrs) = ""
    · simp [cardLogIn, h]
    · simp [cardLogIn, h]

/-- Witness for C3's amended theorem at concrete inputs. -/
theorem c3_witness :
    logIn true 200 (some failLoginBody) cexCookieHeaders = .error "登录失败: 邮箱或密码错误"
    ∧ logIn true 200 (some (Json.obj [("ret", Json.num 1), ("msg", Json.str "ok")]))
        ⟨some [], some ""⟩ = .error "获取 Cookie 失败（Set-Cookie 为空）"
    ∧ ((cardLogIn "t" ⟨none, none⟩).ok = true
         ↔ formatCookie (getSetCookieArray ⟨none, none⟩) ≠ "") :=
  ⟨c3_amended.1 200 failLoginBody cexCookieHeaders 0 "邮箱或密码错误" rfl rfl (by decide) rfl
     (by decide),
   c3_amended.2.1 200 (Json.obj [("ret", Json.num 1), ("msg", Json.str "ok")])
     ⟨some [], some ""⟩ rfl rfl rfl,
   c3_amended.2.2 "t" ⟨none, none⟩⟩

/-- C5 counterexample: the claim is false on the code.  In the
single-account variant, a run whose account flow succeeded but whose
configured notification attempt failed still exits 0: the `catch` around
`sendTelegram` only logs ("通知失败不影响签到主流程"). -/
theorem c5_counterexample :
    tgConfigured (some "123:abc") (some "456") = true
    ∧ (sendTelegram (some "123:abc") (some "456") ⟨false, 500, "boom"⟩).isOk = false
    ∧ (mainSingle "账号1" "https://ikuuu.nl" (.ok ⟨"uid=1", "ok"⟩) (fun _ => .ok "签到成功")
        (some "123:abc") (some "456") ⟨false, 500, "boom"⟩).1 = 0 :=
  ⟨rfl, rfl, rfl⟩

/-- C5 amended: the exit code reflects only the account flows.  In the
single-account variant it is 0 exactly when login and check-in both
succeeded — the notification outcome, even a failed configured attempt,
never affects it; in the `Promise.allSettled` variant it is 0 exactly when
no account's orchestration was rejected (that variant attempts no
notification at all). -/
theorem c5_amended :
    (∀ name baseUrl lo co te ce resp,
       (mainSingle name baseUrl lo co te ce resp).1 = 0
         ↔ ∃ sess msg, lo = .ok sess ∧ co sess = .ok msg)
    ∧ (∀ accounts run, (mainAllSettledCore accounts run).2 = 0
         ↔ ∀ a ∈ accounts, settledRejected (run a) = false) := by
  constructor
  · intro name baseUrl lo co te ce resp
    cases lo with
    | error e => simp [mainSingle]
    | ok sess =>
      cases hco : co sess with
      | error e => simp [mainSingle, hco]
      | ok msg => simp [mainSingle, hco]
  · intro accounts run
    have hiff : ((accounts.map run).any settledRejected = true)
        ↔ ∃ a ∈ accounts, settledRejected (run a) = true := by
      simp [List.any_eq_true, List.mem_map]
    simp only [mainAllSettledCore]
    by_cases hb : (accounts.map run).any settledRejected = true
    · obtain ⟨a, ha, hr⟩ := hiff.mp hb
      simp only [hb, if_true]
      constructor
      · intro h; exact absurd h one_ne_zero
      · intro hall; rw [hall a ha] at hr; exact absurd hr (by decide)
    · rw [Bool.not_eq_true] at hb
      simp only [hb, Bool.false_eq_true, if_false]
      constructor
      · intro _ a ha
        cases hx : settledRejected (run a) with
        | false => rfl
        | true => exact absurd (hiff.mpr ⟨a, ha, hx⟩) (by simp [hb])
      · intro _; trivial

/-- Witness for C5's amended theorem at concrete inputs. -/
theorem c5_witness :
    (mainSingle "n" "b" (.ok ⟨"c", "m"⟩) (fun _ => .ok "签到成功") (some "t") (some "c")
        ⟨false, 500, "x"⟩).1 = 0
    ∧ (mainAllSettledCore [Json.obj []] (fun _ => .ok "m")).2 = 0 :=
  ⟨(c5_amended.1 "n" "b" (.ok ⟨"c", "m"⟩) (fun _ => .ok "签到成功") (some "t") (some "c")
      ⟨false, 500, "x"⟩).mpr ⟨⟨"c", "m"⟩, "签到成功", rfl, rfl⟩,
   (c5_amended.2 [Json.obj []] (fun _ => .ok "m")).mpr (fun a _ => rfl)⟩

/-- The card-variant run of the spec's three-account scenario: account 2's
login throws, accounts 1 and 3 complete normally. -/
def cexCardRuns : List CardAccountRun :=
  [⟨"账号1", .ok ⟨true, "uid=1", "r"⟩, .ok (true, some (Json.obj [("msg", Json.str "签到成功")]))⟩,
   ⟨"账号2", .error "网络请求出错 - 500", .ok (true, none)⟩,
   ⟨"账号3", .ok ⟨true, "uid=3", "r"⟩, .ok (true, some (Json.obj [("msg", Json.str "签到成功")]))⟩]

/-- C1 counterexample: the claim is false on the code as a statement about
every coordinator variant.  In the sequential card variant, with three
accounts where account 2's login throws, the summary does contain a block
for accounts 1 and 3, but the process exit code is 0 — this variant never
reports overall failure through its exit status. -/
theorem c1_counterexample :
    (cexCardRuns.get? 1).map CardAccountRun.loginOutcome
      = some (.error "网络请求出错 - 500")
    ∧ ("👤 账号1") ∈ (cardMainCore cexCardRuns (.ok ())).1
    ∧ ("👤 账号3") ∈ (cardMainCore cexCardRuns (.ok ())).1
    ∧ (cardMainCore cexCardRuns (.ok ())).2 = 0 :=
  ⟨rfl, by decide, by decide, rfl⟩

/-- C1 amended: in both multi-account variants, one account's thrown error
never prevents evaluation or reporting of the others — the `allSettled`
summary has exactly one line per account and line `i` depends only on
account `i`'s own outcome, and every account of a card-variant run
contributes its block to the summary.  The `allSettled` variant exits 1
when any account's orchestration was rejected, but the card variant always
exits 0 once configuration parsing succeeded. -/
theorem c1_amended :
    (∀ accounts run, (mainAllSettledCore accounts run).1.length = accounts.length)
    ∧ (∀ accounts run i a, accounts.get? i = some a →
        (mainAllSettledCore accounts run).1.get? i
          = some (renderResultLine i (some a) (run a)))
    ∧ (∀ accounts run a, a ∈ accounts → settledRejected (run a) = true →
        (mainAllSettledCore accounts run).2 = 1)
    ∧ (∀ runs notify r, r ∈ runs → ("👤 " ++ r.name) ∈ (cardMainCore runs notify).1)
    ∧ (∀ runs notify, (cardMainCore runs notify).2 = 0) := by
  refine ⟨?_, ?_, ?_, ?_, ?_⟩
  · intro accounts run
    simp [mainAllSettledCore, buildLines_length]
  · intro accounts run i a ha
    rw [mainAllSettled_line, ha]
    rfl
  · intro accounts run a ha hr
    have : (accounts.map run).any settledRejected = true := by
      simp only [List.any_eq_true]
      exact ⟨run a, List.mem_map_of_mem run ha, hr⟩
    simp [mainAllSettledCore, this]
  · intro runs notify r hr
    have hne : ¬ ("👤 " ++ r.name) = "" := by
      intro h
      have := congrArg String.data h
      rw [String.data_append] at this
      simp at this
    exact mem_dropTrailingEmpty _ _ hne (mem_cardSummaryLines runs r hr)
  · intro runs notify
    rfl

/-- Witness for C1's amended theorem at concrete inputs: a two-account
`allSettled` run where account 1 rejects still renders account 2's line and
exits 1; every account of the card scenario has its block in the summary. -/
theorem c1_witness :
    (mainAllSettledCore [Json.obj [("name", Json.str "甲")], Json.obj []]
        (fun _ => .error "登录失败: x")).1.get? 1
      = some (renderResultLine 1 (some (Json.obj []))
          ((fun (_ : Json) => (.error "登录失败: x" : Except String String)) (Json.obj [])))
    ∧ (mainAllSettledCore [Json.obj [("name", Json.str "甲")], Json.obj []]
        (fun _ => .error "登录失败: x")).2 = 1
    ∧ ("👤 账号2") ∈ (cardMainCore cexCardRuns (.ok ())).1 :=
  ⟨c1_amended.2.1 [Json.obj [("name", Json.str "甲")], Json.obj []]
     (fun _ => .error "登录失败: x") 1 (Json.obj []) rfl,
   c1_amended.2.2.1 [Json.obj [("name", Json.str "甲")], Json.obj []]
     (fun _ => .error "登录失败: x") (Json.obj [])
     (List.mem_cons.mpr (Or.inr (List.mem_cons_self _ _))) rfl,
   c1_amended.2.2.2.1 cexCardRuns (.ok ()) ⟨"账号2", .error "网络请求出错 - 500", .ok (true, none)⟩
     (List.mem_cons.mpr (Or.inr (List.mem_cons_self _ _)))⟩

/-- C10: for every check-in message string, `parseEarnedFromMsg` returns the
(whitespace-normalized) capture of the leftmost match of the `获得(了)`
pattern, falling back to the `+amount` pattern only when the first pattern
matches nowhere, and returns the empty string when neither pattern matches
anywhere (it is a total function, so it never raises); the orchestrator's
summary then renders a non-matching earned field as `0` (`领取：0`), unlike
the `usedTotal`/`remaining` traffic fields, which render as the `获取失败`
placeholder when their patterns do not match. -/
theorem c10_parseEarned_claim :
    (∀ msg : String,
       ((∀ i, matchP1At (msg.data.drop i) = none) →
        (∀ i, matchP2At (msg.data.drop i) = none) →
          parseEarnedFromMsg msg = "")
       ∧ (∀ i g, matchP1At (msg.data.drop i) = some g →
           (∀ j, j < i → matchP1At (msg.data.drop j) = none) →
           parseEarnedFromMsg msg = ⟨trimChars (collapseWs g)⟩)
       ∧ (∀ i g, (∀ i2, matchP1At (msg.data.drop i2) = none) →
           matchP2At (msg.data.drop i) = some g →
           (∀ j, j < i → matchP2At (msg.data.drop j) = none) →
           parseEarnedFromMsg msg = ⟨trimChars (collapseWs g)⟩))
    ∧ (∀ msg html, parseEarnedFromMsg msg = "" →
        ("领取：0" : String).data <:+: (processSummary msg html).data)
    ∧ (∀ msg html, (parseTraffic html).usedTotal = "" →
        ("累计已用：获取失败" : String).data <:+: (processSummary msg html).data)
    ∧ (∀ msg html, (parseTraffic html).remaining = "" →
        ("剩余：获取失败" : String).data <:+: (processSummary msg html).data) := by
  refine ⟨?_, ?_, ?_, ?_⟩
  · intro msg
    refine ⟨?_, ?_, ?_⟩
    · intro h1 h2
      unfold parseEarnedFromMsg
      rw [(scanFor_eq_none matchP1At msg.data).mpr h1,
        (scanFor_eq_none matchP2At msg.data).mpr h2]
    · intro i g hg hbefore
      unfold parseEarnedFromMsg
      rw [scanFor_first matchP1At msg.data i g hg hbefore]
    · intro i g hall hg hbefore
      unfold parseEarnedFromMsg
      rw [(scanFor_eq_none matchP1At msg.data).mpr hall,
        scanFor_first matchP2At msg.data i g hg hbefore]
  · intro msg html hE
    simp only [processSummary, hE]
    have h0 : "领取：" ++ jsOr "" "0" = "领取：0" := by decide
    rw [h0]
    exact mem_joinSep _ _ _ (by simp)
  · intro msg html hU
    simp only [processSummary, hU]
    have h0 : "累计已用：" ++ jsOr "" "获取失败" = "累计已用：获取失败" := by decide
    rw [h0]
    exact mem_joinSep _ _ _ (by simp)
  · intro msg html hR
    simp only [processSummary, hR]
    have h0 : "剩余：" ++ jsOr "" "获取失败" = "剩余：获取失败" := by decide
    rw [h0]
    exact mem_joinSep _ _ _ (by simp)

/-- Witness for C10 at concrete inputs: a message matching the first pattern
at its very first position, a message matching neither pattern (rendered as
`领取：0`), and an HTML page matching no traffic pattern (rendered as the
`获取失败` placeholder). -/
theorem c10_witness :
    parseEarnedFromMsg "获得了 500MB 流量" = "500MB"
    ∧ ("领取：0" : String).data <:+: (processSummary "签到失败" "x").data
    ∧ ("累计已用：获取失败" : String).data <:+: (processSummary "m" "x").data
    ∧ ("剩余：获取失败" : String).data <:+: (processSummary "m" "x").data :=
  ⟨((c10_parseEarned_claim.1 "获得了 500MB 流量").2.1 0 "500MB".data (by decide)
      (fun j hj => absurd hj (Nat.not_lt_zero j))).trans (by decide),
   c10_parseEarned_claim.2.1 "签到失败" "x" (by decide),
   c10_parseEarned_claim.2.2.1 "m" "x" (by decide),
   c10_parseEarned_claim.2.2.2 "m" "x" (by decide)⟩

end Ikuuu
